import Mathlib

/-!
Verification model of the rpi-srv telemetry agent (src/rpi-srv.py).

The Python program is shallowly embedded: pure fragments become Lean
functions, the stateful measurement cycle becomes explicit state passing
on a state record, and every Python statement that can raise is modelled
with Except.  External collaborators (the MCP3008 channel source, the
clock, the socket layer and the byte-level IEEE-754 float encoder of the
struct library) are parameters or abstract executable stand-ins; every
control-flow decision of the source is reproduced faithfully, including
its slips (the object-valued candidate in find_mibvar_next, the return
statement inside the finally block of measure, the statistics-table OID
prefix that lacks a leading dot).
-/

namespace RpiSrv

/-- Python exception kinds that the modelled code paths can raise. -/
inductive PyErr
  | keyError
  | typeError
  | structError
  | oserror
  | zeroDivisionError
  | recursionError
deriving DecidableEq, Repr

/-- Python values flowing through MIB handlers and replies (None, int,
bool, str, float).  Floats are modelled as rationals. -/
inductive PyVal
  | vnone
  | vint (n : Int)
  | vbool (b : Bool)
  | vstr (s : String)
  | vfloat (q : ℚ)
deriving DecidableEq, Repr

/-- Python str() of a value as used when the control channel prints a
reply line.  The decimal rendering of floats is an abstract stand-in
(never exercised by the claims); int, bool and str follow Python. -/
def pyStr : PyVal → String
  | .vnone => "None"
  | .vint n => toString n
  | .vbool b => if b then "True" else "False"
  | .vstr s => s
  | .vfloat q => toString q.num ++ "r" ++ toString q.den

/-- Python 3 round() on a rational: round half to even. -/
def pyRound (q : ℚ) : Int :=
  let f : Int := q.floor
  let frac : ℚ := q - (f : ℚ)
  if frac < 1/2 then f
  else if (1 : ℚ)/2 < frac then f + 1
  else if f % 2 = 0 then f else f + 1

/-! ### OID comparison (cmp_oids, lines 157-194)

OIDs are processed as lists of characters; oid.strip of dots followed by
split on dots is reproduced over List Char. -/

/-- Python strip of leading and trailing dot characters. -/
def stripDots (l : List Char) : List Char :=
  ((l.dropWhile (fun c => c == '.')).reverse.dropWhile (fun c => c == '.')).reverse

/-- Python split on the dot character; the empty input yields one empty
component, exactly like str.split. -/
def splitDot : List Char → List (List Char)
  | [] => [[]]
  | c :: rest =>
    let r := splitDot rest
    if c == '.' then [] :: r
    else
      match r with
      | [] => [[c]]
      | s :: ss => (c :: s) :: ss

/-- Components of an OID string: strip dots at the ends, split on dots. -/
def oidComps (s : String) : List (List Char) :=
  splitDot (stripDots s.data)

/-- Python str.isdigit for a component: nonempty and all digits. -/
def isDigits (l : List Char) : Bool :=
  !l.isEmpty && l.all (fun c => c.isDigit)

/-- Numeric value of a digit component, as Python int() computes it. -/
def digitsVal (l : List Char) : Nat :=
  l.foldl (fun a c => 10 * a + (c.toNat - 48)) 0

/-- Component-wise comparison loop of cmp_oids: empty components are
replaced by the single digit zero, a non-digit component aborts with
none, otherwise the numeric values decide; when one list ends first the
longer list is greater. -/
def cmpComps : List (List Char) → List (List Char) → Option Int
  | [], [] => some 0
  | _ :: _, [] => some 1
  | [], _ :: _ => some (-1)
  | e1 :: t1, e2 :: t2 =>
    let f1 := if e1.isEmpty then ['0'] else e1
    let f2 := if e2.isEmpty then ['0'] else e2
    if isDigits f1 && isDigits f2 then
      if digitsVal f1 < digitsVal f2 then some (-1)
      else if digitsVal f2 < digitsVal f1 then some 1
      else cmpComps t1 t2
    else none

/-- cmp_oids of the source: -1, 0, 1, or none on a format error. -/
def cmp_oids (oid1 oid2 : String) : Option Int :=
  cmpComps (oidComps oid1) (oidComps oid2)

/-- A component is well formed when it is empty (treated as zero) or all
digits. -/
def goodComp (l : List Char) : Bool :=
  l.isEmpty || isDigits l

/-- Well-formed OID: every component empty or all digits. -/
def wfOid (s : String) : Bool :=
  (oidComps s).all goodComp

/-- Numeric view of one component: empty counts as zero. -/
def compVal (l : List Char) : Nat :=
  digitsVal (if l.isEmpty then ['0'] else l)

/-- Numeric view of a whole OID. -/
def toNats (s : String) : List Nat :=
  (oidComps s).map compVal

/-- Reference lexicographic comparison on lists of naturals; a proper
prefix is smaller. -/
def natLex : List Nat → List Nat → Int
  | [], [] => 0
  | _ :: _, [] => 1
  | [], _ :: _ => -1
  | a :: t1, b :: t2 =>
    if a < b then -1 else if b < a then 1 else natLex t1 t2

/-! ### Channel and ChannelList state (lines 355-555) -/

/-- State of one Channel object: accumulator, sample count, validity,
last averaged value and its timestamp.  The MCP3008 handle is external
and appears only as the read source passed to measure. -/
structure ChanSt where
  num : Nat
  label : String
  acc : ℚ
  samples : Nat
  valid : Bool
  last : Option Int
  ts : Option ℚ
deriving DecidableEq, Repr

/-- One entry of the last_values mapping: Channel.get_lastprop. -/
abbrev LastProp := Bool × Option Int × Option ℚ

/-- State of the ChannelList object.  vec is kept in ascending channel
number order (the Python dict plus its _sorted_ch_nums list); samples
holds the per-cycle sample count used by measure (an int greater than
one by the set_parms invariant, modelled separately on Parms). -/
structure CLState where
  vec : List ChanSt
  samples : Nat
  delta : ℚ
  factor : ℚ
  valid : Bool
  ts_start : Option ℚ
  ts_complete : Option ℚ
  lock : Bool
  last_values : List (Nat × LastProp)
deriving DecidableEq, Repr

/-- A freshly constructed Channel (acc 0, no samples, invalid, no value,
no timestamp). -/
def freshChan (n : Nat) (lab : String) : ChanSt :=
  { num := n, label := lab, acc := 0, samples := 0, valid := false, last := none, ts := none }

/-- The configured MCP3008 channels of the program. -/
def channels_conf : List (Nat × String) :=
  [(0, "MAIN"), (1, "REG"), (2, "BAT"), (3, "+5V")]

def VREF : ℚ := 3324
def R_PU : ℚ := 9920
def R_PD : ℚ := 9930

/-- Scale factor computed in main: VREF * (R_PU + R_PD) / R_PD. -/
def factor0 : ℚ := VREF * (R_PU + R_PD) / R_PD

/-- The ChannelList state right after main builds it: default sampling
parameters, all four channels added, nothing measured yet. -/
def freshState : CLState :=
  { vec := channels_conf.map (fun pr => freshChan pr.1 pr.2)
    samples := 5
    delta := 1/1000
    factor := factor0
    valid := false
    ts_start := none
    ts_complete := none
    lock := false
    last_values := channels_conf.map (fun pr => (pr.1, (false, none, none))) }

/-- A single-channel fresh ChannelList used by concrete scenarios. -/
def fresh1 : CLState :=
  { vec := [freshChan 0 "MAIN"]
    samples := 5
    delta := 1/1000
    factor := factor0
    valid := false
    ts_start := none
    ts_complete := none
    lock := false
    last_values := [(0, (false, none, none))] }

/-- A state whose cycle lock is currently held. -/
def lockedState : CLState :=
  { freshState with lock := true }

/-- Channel.reset_acc. -/
def reset_acc (c : ChanSt) : ChanSt :=
  { c with acc := 0, samples := 0 }

/-- ChannelList.read: one add_acc per channel in ascending order.  A
raising read leaves the current and the following channels untouched
and aborts the loop, exactly like the Python for loop. -/
def readAllCh (read1 : Nat → Except PyErr ℚ) :
    List ChanSt → List ChanSt × Option PyErr
  | [] => ([], none)
  | c :: rest =>
    match read1 c.num with
    | .error e => (c :: rest, some e)
    | .ok v =>
      let c2 := { c with acc := c.acc + v, samples := c.samples + 1 }
      match readAllCh read1 rest with
      | (rest2, err) => (c2 :: rest2, err)

/-- ChannelList.average: avg_acc per channel plus the last_values
update.  avg_acc first clears the valid flag, then divides (raising
ZeroDivisionError when the sample count is zero, with the flag left
false), stamps the clock and sets the flag; k counts clock calls. -/
def avgAllCh (factor : ℚ) (clock : Nat → ℚ) :
    Nat → List ChanSt → List ChanSt × List (Nat × LastProp) × Nat × Option PyErr
  | k, [] => ([], [], k, none)
  | k, c :: rest =>
    if c.samples = 0 then
      ({ c with valid := false } :: rest, [], k, some .zeroDivisionError)
    else
      let c2 := { c with
        valid := true
        last := some (pyRound (c.acc * factor / (c.samples : ℚ)))
        ts := some (clock k) }
      match avgAllCh factor clock (k + 1) rest with
      | (rest2, lvs, k2, err) =>
        (c2 :: rest2, (c2.num, (c2.valid, c2.last, c2.ts)) :: lvs, k2, err)

/-- Assignment last_values at key k (the key always exists, channels are
added before any cycle). -/
def setLV (m : List (Nat × LastProp)) (k : Nat) (v : LastProp) :
    List (Nat × LastProp) :=
  m.map (fun pr => if pr.1 = k then (k, v) else pr)

/-- Apply the per-channel last_values assignments made inside average. -/
def applyLVs (m : List (Nat × LastProp)) : List (Nat × LastProp) → List (Nat × LastProp)
  | [] => m
  | (k, v) :: rest => applyLVs (setLV m k v) rest

/-- The sampling loop of measure: i counts remaining iterations, j is
the read round handed to the source, k the clock call counter.  Each
round reads every channel; after the last round average runs; a raise
anywhere aborts to the finally block with the state reached so far
(time.sleep between rounds does not change the modelled state). -/
def mLoop (src : Nat → Nat → Except PyErr ℚ) (clock : Nat → ℚ) (factor : ℚ) :
    Nat → Nat → Nat → CLState → CLState × Nat × Option PyErr
  | 0, _, k, s => (s, k, none)
  | i + 1, j, k, s =>
    match readAllCh (src j) s.vec with
    | (vec2, errR) =>
      let s2 := { s with vec := vec2 }
      match errR with
      | some e => (s2, k, some e)
      | none =>
        if i = 0 then
          match avgAllCh factor clock k s2.vec with
          | (vec3, lvs, k2, errA) =>
            ({ s2 with vec := vec3, last_values := applyLVs s2.last_values lvs },
             k2, errA)
        else
          mLoop src clock factor i (j + 1) k s2

/-- ChannelList.measure.  A held lock returns -1 at once with nothing
changed.  Otherwise the try body runs (invalidate, stamp start, reset,
sample loop) and the finally block always stamps completion, sets the
valid flag, releases the lock and returns 0 - the return statement
inside finally discards any exception raised by the body, so the pair
result is total and never escalates a read failure. -/
def measure (src : Nat → Nat → Except PyErr ℚ) (clock : Nat → ℚ)
    (s : CLState) : Int × CLState :=
  if s.lock then (-1, s)
  else
    let s1 := { s with
      lock := true
      valid := false
      ts_start := some (clock 0)
      vec := s.vec.map reset_acc }
    match mLoop src clock s1.factor s1.samples 0 1 s1 with
    | (s2, k, _swallowed) =>
      (0, { s2 with ts_complete := some (clock k), valid := true, lock := false })

/-- run_measure_circle without table printing: the Bool records whether
the failed-circle error line is written, which happens exactly when the
int returned by measure is truthy (the busy -1 case only). -/
def run_measure_circle (src : Nat → Nat → Except PyErr ℚ) (clock : Nat → ℚ)
    (s : CLState) : Bool × CLState :=
  match measure src clock s with
  | (r, s2) => (decide (r ≠ 0), s2)

/-- A channel source whose every read raises. -/
def badSrc : Nat → Nat → Except PyErr ℚ :=
  fun _ _ => .error .oserror

/-- A channel source that raises only when channel 1 is read in the
second sampling round. -/
def midSrc : Nat → Nat → Except PyErr ℚ :=
  fun j ch => if j = 1 ∧ ch = 1 then .error .oserror else .ok (1/2)

/-- A constant clock. -/
def clk0 : Nat → ℚ := fun _ => 0

/-! ### MIB registry (MIBVar, mib_init, lines 105-266) -/

def MIB_BASE : String := ".1.3.6.1.3.999"
def MIB_MAX_ACCESS_NA : Nat := 0
def MIB_MAX_ACCESS_RO : Nat := 2
def MIB_SYNTAX_INT : Nat := 1
def MIB_SYNTAX_STRING : Nat := 2
def MIB_SYNTAX_OID : Nat := 3
def MIB_SYNTAX_GAUGE : Nat := 7
def MIB_SYNTAX_TT : Nat := 8
def SPI_PORT : Nat := 0
def SPI_DEVICE : Nat := 0
def MIB_DEVTYPE_MCP3008 : Nat := 1

/-- A MIB variable record.  The handler is the live accessor closure,
evaluated against the current ChannelList state; synt is the SYNTAX
code; next_oid the successor link filled after sorting. -/
structure MIBVar where
  name : String
  oid : String
  handler : CLState → PyVal
  max_access : Nat := MIB_MAX_ACCESS_RO
  synt : Nat := MIB_SYNTAX_STRING
  timeticks_conv : Bool := false
  next_oid : Option String := none

/-- Lookup of a Channel object by number, as the bound-method handlers
reach their channel (the Python closures hold the object itself; the
channel always exists once added). -/
def vecGet (st : CLState) (n : Nat) : Option ChanSt :=
  st.vec.find? (fun c => c.num == n)

def chanNumH (n : Nat) : CLState → PyVal := fun st =>
  match vecGet st n with
  | some c => .vint c.num
  | none => .vnone

def chanNameH (n : Nat) : CLState → PyVal := fun st =>
  match vecGet st n with
  | some c => .vstr c.label
  | none => .vnone

def chanValidH (n : Nat) : CLState → PyVal := fun st =>
  match vecGet st n with
  | some c => .vbool c.valid
  | none => .vnone

def chanLastH (n : Nat) : CLState → PyVal := fun st =>
  match vecGet st n with
  | some c =>
    match c.last with
    | some v => .vint v
    | none => .vnone
  | none => .vnone

def chanTsH (n : Nat) : CLState → PyVal := fun st =>
  match vecGet st n with
  | some c =>
    match c.ts with
    | some q => .vfloat q
    | none => .vnone
  | none => .vnone

def tsStartH : CLState → PyVal := fun st =>
  match st.ts_start with
  | some q => .vfloat q
  | none => .vnone

def tsCompleteH : CLState → PyVal := fun st =>
  match st.ts_complete with
  | some q => .vfloat q
  | none => .vnone

/-- The five channel-table columns registered for channel i; mirrors the
p, s, s1 string concatenations of mib_init (p ends in a dot, s1 starts
with one). -/
def chanVarBlock (i : Nat) : List (String × MIBVar) :=
  let p := ".1.6.1."
  let s1 := ".1.1." ++ toString (i + 1)
  [ (p ++ toString 1 ++ s1, { name := "chanNumber", oid := p ++ toString 1 ++ s1, handler := chanNumH i, synt := MIB_SYNTAX_INT }),
    (p ++ toString 2 ++ s1, { name := "chanName", oid := p ++ toString 2 ++ s1, handler := chanNameH i, synt := MIB_SYNTAX_STRING }),
    (p ++ toString 3 ++ s1, { name := "chanValid", oid := p ++ toString 3 ++ s1, handler := chanValidH i, synt := MIB_SYNTAX_INT }),
    (p ++ toString 4 ++ s1, { name := "chanLast", oid := p ++ toString 4 ++ s1, handler := chanLastH i, synt := MIB_SYNTAX_GAUGE }),
    (p ++ toString 5 ++ s1, { name := "chanTs", oid := p ++ toString 5 ++ s1, handler := chanTsH i, synt := MIB_SYNTAX_TT, timeticks_conv := true }) ]

/-- The registry in insertion order of mib_init.  Note the statistics
rows: their prefix string in the source is 1.4.1. without a leading dot,
reproduced verbatim here. -/
def mibRaw : List (String × MIBVar) :=
  [ ("", { name := "snGroup", oid := "", handler := fun _ => .vnone, max_access := MIB_MAX_ACCESS_NA, synt := MIB_SYNTAX_OID }),
    (".1", { name := "snAdc", oid := ".1", handler := fun _ => .vnone, max_access := MIB_MAX_ACCESS_NA, synt := MIB_SYNTAX_OID }),
    (".1.1.0", { name := "snAdcDevNumber", oid := ".1.1.0", handler := fun _ => .vint 1, synt := MIB_SYNTAX_INT }),
    (".1.2", { name := "snAdcDevTable", oid := ".1.2", handler := fun _ => .vnone, max_access := MIB_MAX_ACCESS_NA, synt := MIB_SYNTAX_OID }),
    (".1.2.1", { name := "snAdcDevEntry", oid := ".1.2.1", handler := fun _ => .vnone, max_access := MIB_MAX_ACCESS_NA, synt := MIB_SYNTAX_OID }),
    (".1.2.1.1.1", { name := "devSpiPort", oid := ".1.2.1.1.1", handler := fun _ => .vint SPI_PORT, synt := MIB_SYNTAX_INT }),
    (".1.2.1.2.1", { name := "devSpiDevice", oid := ".1.2.1.2.1", handler := fun _ => .vint SPI_DEVICE, synt := MIB_SYNTAX_INT }),
    (".1.2.1.3.1", { name := "devType", oid := ".1.2.1.3.1", handler := fun _ => .vint MIB_DEVTYPE_MCP3008, synt := MIB_SYNTAX_INT }),
    (".1.2.1.4.1", { name := "devName", oid := ".1.2.1.4.1", handler := fun _ => .vstr "MCP3008 on PCB", synt := MIB_SYNTAX_STRING }),
    (".1.2.1.5.1", { name := "devChanNumber", oid := ".1.2.1.5.1", handler := fun _ => .vint channels_conf.length, synt := MIB_SYNTAX_INT }),
    (".1.3.0", { name := "snAdcStatsNumber", oid := ".1.3.0", handler := fun _ => .vint 1, synt := MIB_SYNTAX_INT }),
    (".1.4", { name := "snAdcStatsTable", oid := ".1.4", handler := fun _ => .vnone, max_access := MIB_MAX_ACCESS_NA, synt := MIB_SYNTAX_OID }),
    (".1.4.1", { name := "snAdcStatsEntry", oid := ".1.4.1", handler := fun _ => .vnone, max_access := MIB_MAX_ACCESS_NA, synt := MIB_SYNTAX_OID }),
    ("1.4.1.1.1", { name := "statsValid", oid := "1.4.1.1.1", handler := fun st => .vbool st.valid, synt := MIB_SYNTAX_INT }),
    ("1.4.1.2.1", { name := "statsTsStart", oid := "1.4.1.2.1", handler := tsStartH, synt := MIB_SYNTAX_TT, timeticks_conv := true }),
    ("1.4.1.3.1", { name := "statsTsComplete", oid := "1.4.1.3.1", handler := tsCompleteH, synt := MIB_SYNTAX_TT, timeticks_conv := true }),
    (".1.5.0", { name := "snAdcChanNumber", oid := ".1.5.0", handler := fun st => .vint st.vec.length, synt := MIB_SYNTAX_INT }),
    (".1.6", { name := "snAdcChanTable", oid := ".1.6", handler := fun _ => .vnone, max_access := MIB_MAX_ACCESS_NA, synt := MIB_SYNTAX_OID }),
    (".1.6.1", { name := "snAdcChanEntry", oid := ".1.6.1", handler := fun _ => .vnone, max_access := MIB_MAX_ACCESS_NA, synt := MIB_SYNTAX_OID }) ]
  ++ (channels_conf.map (fun pr => chanVarBlock pr.1)).flatten

/-- Insert one OID into a list already sorted by cmp_oids (the registry
keys are pairwise strictly ordered and well formed, so this insertion
sort yields exactly the list Python sorted produces). -/
def insertOid (x : String) : List String → List String
  | [] => [x]
  | y :: ys =>
    match cmp_oids x y with
    | some c => if c < 0 then x :: y :: ys else y :: insertOid x ys
    | none => y :: insertOid x ys

/-- Comparison sort of the registry keys with cmp_oids. -/
def sortOids (l : List String) : List String :=
  l.foldr insertOid []

/-- The sorted OID list built at the end of mib_init. -/
def oids : List String := sortOids (mibRaw.map Prod.fst)

/-- Successor of a key inside the sorted list (set_successor loop). -/
def succIn : List String → String → Option String
  | a :: b :: rest, k => if a = k then some b else succIn (b :: rest) k
  | _, _ => none

/-- The finished registry: every variable carries the OID following it
in sorted order (the last one none). -/
def mib : List (String × MIBVar) :=
  mibRaw.map (fun pr => (pr.1, { pr.2 with next_oid := succIn oids pr.1 }))

/-- Python mib.get on a string key. -/
def mibGet (k : String) : Option MIBVar :=
  (mib.find? (fun pr => decide (pr.1 = k))).map Prod.snd

/-- strip_full_oid (lines 272-285): the full OID must start with the
base and continue empty or with a dot. -/
def strip_full_oid (full_oid : String) : Option String :=
  if MIB_BASE.data.isPrefixOf full_oid.data then
    let oid := full_oid.data.drop MIB_BASE.data.length
    if oid.length = 0 ∨ oid.head? = some '.' then some (String.mk oid) else none
  else none

/-- find_mibvar (lines 291-300). -/
def find_mibvar (full_oid : String) : Option MIBVar :=
  match strip_full_oid full_oid with
  | none => none
  | some oid => mibGet oid

/-- The Python variable candidate of find_mibvar_next holds either None,
an OID string, or - through the slip in the unregistered branches - a
MIBVar object itself. -/
inductive PyCand
  | pynone
  | pystr (s : String)
  | pyobj (v : MIBVar)

def candOfOpt : Option String → PyCand
  | none => .pynone
  | some s => .pystr s

def candOfGet : Option MIBVar → PyCand
  | none => .pynone
  | some v => .pyobj v

/-- The successor walk of find_mibvar_next (lines 346-349).  The while
guard first tests Python truthiness of candidate and then evaluates
mib of candidate: a string key that is absent, or a MIBVar object used
as key, raises KeyError.  When the guard fails the function returns
mib.get of candidate (None or the found variable).  The fuel only
bounds the acyclic successor chain and never runs out on this
registry. -/
def walkChain : Nat → PyCand → Except PyErr (Option MIBVar)
  | 0, _ => .error .recursionError
  | _ + 1, .pynone => .ok none
  | _ + 1, .pyobj _ => .error .keyError
  | n + 1, .pystr s =>
    if s.data.isEmpty then .ok (mibGet s)
    else
      match mibGet s with
      | none => .error .keyError
      | some v =>
        if v.max_access < MIB_MAX_ACCESS_RO then walkChain n (candOfOpt v.next_oid)
        else .ok (mibGet s)

/-- Walk fuel larger than the registry size. -/
def WALK_FUEL : Nat := 64

/-- The binary search of find_mibvar_next (lines 333-343), written with
a fuel argument no smaller than the initial gap so the recursion is
structural; each step halves the low-high gap and a comparison that
returns none raises TypeError, exactly like the Python expression
comparing None with an int. -/
def bsearchHigh (oid : String) : Nat → Nat → Nat → Except PyErr Nat
  | 0, _, hi => .ok hi
  | fuel + 1, lo, hi =>
    if 1 < hi - lo then
      let mid := lo + (hi - lo) / 2
      match cmp_oids oid (oids.getD mid "") with
      | none => .error .typeError
      | some c =>
        if c < 0 then bsearchHigh oid fuel lo mid else bsearchHigh oid fuel mid hi
    else .ok hi

/-- find_mibvar_next (lines 306-349), with every raising dict access
and None comparison of the source made explicit. -/
def find_mibvar_next (full_oid : String) : Except PyErr (Option MIBVar) :=
  match strip_full_oid full_oid with
  | none => .ok none
  | some oid =>
    match mibGet oid with
    | some existed => walkChain WALK_FUEL (candOfOpt existed.next_oid)
    | none =>
      match cmp_oids oid (oids.getD 0 "") with
      | none => .error .typeError
      | some c1 =>
        if c1 < 0 then walkChain WALK_FUEL (candOfGet (mibGet (oids.getD 0 "")))
        else
          match cmp_oids oid (oids.getD (oids.length - 1) "") with
          | none => .error .typeError
          | some c2 =>
            if 0 < c2 then .ok none
            else
              match bsearchHigh oid (oids.length - 1) 0 (oids.length - 1) with
              | .error e => .error e
              | .ok hi => walkChain WALK_FUEL (candOfGet (mibGet (oids.getD hi "")))

/-- MIBVar.get_value (lines 141-148) against the current state: a
variable below read-only yields None; a TimeTicks variable with the
conversion flag multiplies by 100 and rounds (raising TypeError when
the live value is still None, like round of None times 100). -/
def get_value (st : CLState) (v : MIBVar) : Except PyErr PyVal :=
  if v.max_access < MIB_MAX_ACCESS_RO then .ok .vnone
  else
    let val := v.handler st
    if v.synt = MIB_SYNTAX_TT ∧ v.timeticks_conv then
      match val with
      | .vfloat q => .ok (.vint (pyRound (q * 100)))
      | .vint n => .ok (.vint (n * 100))
      | .vbool b => .ok (.vint (if b then 100 else 0))
      | .vnone => .error .typeError
      | .vstr _ => .error .typeError
    else .ok val

/-- Syntax-code to pass-persist syntax name (MIB_SYNTAX_NAMES dict). -/
def MIB_SYNTAX_NAMES : Nat → String
  | 1 => "integer"
  | 2 => "string"
  | 3 => "objectid"
  | 4 => "integer"
  | 5 => "ipaddress"
  | 6 => "counter"
  | 7 => "gauge"
  | 8 => "timeticks"
  | 9 => "counter"
  | 10 => "integer"
  | 11 => "string"
  | _ => ""

/-! ### Control channel (pass-persist loop, lines 848-946) -/

/-- Python readlines: split after every newline, keeping it; a trailing
piece without newline is kept too. -/
def readlinesAux (acc : List Char) : List Char → List (List Char)
  | [] => if acc.isEmpty then [] else [acc.reverse]
  | c :: rest =>
    if c == '\n' then (acc.reverse ++ [c]) :: readlinesAux [] rest
    else readlinesAux (c :: acc) rest

def readlines (s : String) : List String :=
  (readlinesAux [] s.data).map (fun l => String.mk l)

/-- Python rstrip of trailing newlines. -/
def rstripNL (s : String) : String :=
  String.mk ((s.data.reverse.dropWhile (fun c => c == '\n')).reverse)

/-- The GET branch of the main loop (lines 865-904): not-found, below
read-only, and a live value of None each answer NONE; otherwise the
three reply lines echo the requested OID. -/
def getReplyLines (st : CLState) (oid : String) : Except PyErr String :=
  match find_mibvar oid with
  | none => .ok "NONE\n"
  | some v =>
    if v.max_access < MIB_MAX_ACCESS_RO then .ok "NONE\n"
    else
      match get_value st v with
      | .error e => .error e
      | .ok val =>
        if val = .vnone then .ok "NONE\n"
        else .ok (oid ++ "\n" ++ MIB_SYNTAX_NAMES v.synt ++ "\n" ++ pyStr val ++ "\n")

/-- The GETNEXT branch of the main loop (lines 907-934): the reply OID
is MIB_BASE concatenated with the relative OID stored in the found
variable. -/
def getnextReplyLines (st : CLState) (oid : String) : Except PyErr String :=
  match find_mibvar_next oid with
  | .error e => .error e
  | .ok none => .ok "NONE\n"
  | .ok (some v) =>
    match get_value st v with
    | .error e => .error e
    | .ok val =>
      if val = .vnone then .ok "NONE\n"
      else .ok (MIB_BASE ++ v.oid ++ "\n" ++ MIB_SYNTAX_NAMES v.synt ++ "\n"
                ++ pyStr val ++ "\n")

/-- One serviced control-channel wake: the buffered input is split into
lines, the first selects the command, the second (when required)
carries the OID.  The result is what the program writes to stdout; an
exception raised while building a reply escapes the loop. -/
def control_reply (st : CLState) (input : String) : Except PyErr String :=
  match readlines input with
  | [] => .ok ""
  | first :: rest =>
    if first = "PING\n" then .ok "PONG\n"
    else if first = "get\n" then
      match rest with
      | [] => .ok "NONE\n"
      | l :: _ => getReplyLines st (rstripNL l)
    else if first = "getnext\n" then
      match rest with
      | [] => .ok "NONE\n"
      | l :: _ => getnextReplyLines st (rstripNL l)
    else .ok "NONE\n"

/-! ### Datagram protocol (process_message, lines 607-659) -/

def PROTO_VER : Nat := 1
def PROTO_AUTHTYPE_NONE : Nat := 1
def PROTO_UNUSED : Nat := 0
def PROTO_HDRSIZ : Nat := 4
def PROTO_CMD_GETLAST : Nat := 1
def PROTO_CMD_RETLAST : Nat := 2

/-- Big-endian bytes of width w of a natural (reduced modulo 256 per
byte, as struct packs in-range values). -/
def bytesBE : Nat → Nat → List Nat
  | 0, _ => []
  | w + 1, v => bytesBE w (v / 256) ++ [v % 256]

/-- struct format B for a small natural. -/
def packB (v : Nat) : List Nat := bytesBE 1 v

/-- struct format B applied to a Python bool (False packs as 0). -/
def packBool (b : Bool) : List Nat := [if b then 1 else 0]

/-- struct format L (4-byte unsigned): packing None, a negative, or an
out-of-range int raises struct.error. -/
def packL (v : Option Int) : Except PyErr (List Nat) :=
  match v with
  | none => .error .structError
  | some n =>
    if n < 0 ∨ (2 : Int) ^ 32 ≤ n then .error .structError
    else .ok (bytesBE 4 n.toNat)

/-- struct format d (8-byte float): packing None raises struct.error;
for a real value the IEEE-754 bit pattern of the external library is
abstracted by an executable 8-byte stand-in (only the width and the
failure on None matter to the claims). -/
def packD (t : Option ℚ) : Except PyErr (List Nat) :=
  match t with
  | none => .error .structError
  | some q => .ok (bytesBE 8 (q.num.natAbs + q.den))

/-- Header prepared for RETLAST replies. -/
def retlast_hdr : List Nat :=
  packB PROTO_VER ++ packB PROTO_AUTHTYPE_NONE ++ packB PROTO_UNUSED
    ++ packB PROTO_CMD_RETLAST

/-- The global sorted channel number list of main. -/
def sorted_channels : List Nat := channels_conf.map Prod.fst

/-- Dict read last_values of ch. -/
def lvGet (m : List (Nat × LastProp)) (k : Nat) : Option LastProp :=
  (m.find? (fun pr => pr.1 == k)).map Prod.snd

/-- The per-channel records of a RETLAST PDU, built in ascending channel
order; a missing key raises KeyError and a still-unset value or
timestamp raises struct.error. -/
def buildRecs (m : List (Nat × LastProp)) : List Nat → Except PyErr (List Nat)
  | [] => .ok []
  | ch :: rest =>
    match lvGet m ch with
    | none => .error .keyError
    | some (v, lastv, ts) =>
      match packL lastv with
      | .error e => .error e
      | .ok lb =>
        match packD ts with
        | .error e => .error e
        | .ok tb =>
          match buildRecs m rest with
          | .error e => .error e
          | .ok restB => .ok (packB ch ++ packBool v ++ lb ++ tb ++ restB)

/-- The RETLAST PDU for the current snapshot (lines 637-643). -/
def build_retlast (s : CLState) : Except PyErr (List Nat) :=
  match packD s.ts_start with
  | .error e => .error e
  | .ok d1 =>
    match packD s.ts_complete with
    | .error e => .error e
    | .ok d2 =>
      match buildRecs s.last_values sorted_channels with
      | .error e => .error e
      | .ok recs =>
        .ok (retlast_hdr ++ packB sorted_channels.length ++ packBool s.valid
             ++ d1 ++ d2 ++ recs)

/-- process_message: header length and version checks, the GETLAST
command with an empty body answered by a RETLAST PDU, everything else
counted and dropped (no reply, modelled as ok none).  An exception from
the encoder escapes as error. -/
def process_message (s : CLState) (data : List Nat) :
    Except PyErr (Option (List Nat)) :=
  if data.length < PROTO_HDRSIZ then .ok none
  else
    match data with
    | ver :: _auth :: _unused :: cmd :: body =>
      if ver ≠ PROTO_VER then .ok none
      else if cmd = PROTO_CMD_GETLAST then
        if body ≠ [] then .ok none
        else
          match build_retlast s with
          | .error e => .error e
          | .ok pdu => .ok (some pdu)
      else .ok none
    | _ => .ok none

/-! ### Signal wakeup channel drain (lines 77 and 819-826) -/

def SIG_WAKEUP_FD_RLEN : Nat := 8

/-- The signal branch of one reactor wake: a single os.read of at most
SIG_WAKEUP_FD_RLEN bytes from the non-blocking wakeup pipe.  First
component: the bytes read (each then unpacked and dispatched);
second: the bytes still pending in the pipe afterwards. -/
def sigDrainRead (pending : List Nat) : List Nat × List Nat :=
  (pending.take SIG_WAKEUP_FD_RLEN, pending.drop SIG_WAKEUP_FD_RLEN)

/-- Level-triggered readiness of the wakeup pipe. -/
def pipeReadable (pending : List Nat) : Bool := !pending.isEmpty

/-! ### Sampling parameters (set_parms, lines 424-448) -/

/-- A Python numeric argument handed to set_parms: int, float or bool
(bool is a distinct type name for the type check). -/
inductive PyNum
  | pint (n : Int)
  | pfloat (q : ℚ)
  | pbool (b : Bool)
deriving DecidableEq, Repr

/-- Python truthiness of a numeric value. -/
def pTruthy : PyNum → Bool
  | .pint n => n ≠ 0
  | .pfloat q => q ≠ 0
  | .pbool b => b

/-- Python type name check: type of x has name int (a bool does not). -/
def pIsInt : PyNum → Bool
  | .pint _ => true
  | _ => false

/-- Python type name in int or float. -/
def pIsNum : PyNum → Bool
  | .pint _ => true
  | .pfloat _ => true
  | .pbool _ => false

/-- Numeric value for comparisons. -/
def pVal : PyNum → ℚ
  | .pint n => n
  | .pfloat q => q
  | .pbool b => if b then 1 else 0

def MIN_AVG_SAMPLES : ℚ := 1
def MIN_AVG_DELTA : ℚ := 0

/-- The three checked sampling parameters of a ChannelList. -/
structure Parms where
  samples : PyNum
  delta : PyNum
  factor : PyNum
deriving DecidableEq, Repr

/-- First guarded assignment of set_parms: samples must be truthy, an
int, and strictly above the minimum. -/
def setSamples (p : Parms) : Option PyNum → Parms
  | none => p
  | some s =>
    if pTruthy s && pIsInt s && decide (MIN_AVG_SAMPLES < pVal s) then
      { p with samples := s }
    else p

/-- Second guarded assignment: delta must be truthy, int or float, and
strictly above the minimum. -/
def setDelta (p : Parms) : Option PyNum → Parms
  | none => p
  | some d =>
    if pTruthy d && pIsNum d && decide (MIN_AVG_DELTA < pVal d) then
      { p with delta := d }
    else p

/-- Third guarded assignment: factor must be truthy and int or float. -/
def setFactor (p : Parms) : Option PyNum → Parms
  | none => p
  | some f =>
    if pTruthy f && pIsNum f then { p with factor := f } else p

/-- ChannelList.set_parms: the three guarded assignments in order. -/
def set_parms (p : Parms) (samples delta factor : Option PyNum) : Parms :=
  setFactor (setDelta (setSamples p samples) delta) factor

def DEF_AVG_SAMPLES : PyNum := .pint 5
def DEF_AVG_DELTA : PyNum := .pfloat (1/1000)
def DEF_FACTOR : PyNum := .pint 1

/-- The parameter part of the ChannelList constructor: fields start at
the defaults, then set_parms runs on the constructor arguments. -/
def mkChannelListParms (samples delta factor : PyNum) : Parms :=
  set_parms { samples := DEF_AVG_SAMPLES, delta := DEF_AVG_DELTA, factor := DEF_FACTOR }
    (some samples) (some delta) (some factor)

/-- The sampling-parameter invariant: samples is an int above one and
delta is positive. -/
def ParmsInv (p : Parms) : Prop :=
  pIsInt p.samples = true ∧ 1 < pVal p.samples ∧ 0 < pVal p.delta

/-! ### Helper lemmas about the comparator -/

/-- Unfolding equation of the comparison loop on two cons cells; compVal
is definitionally the numeric value of the zero-replaced component. -/
theorem cmpComps_cons (a b : List Char) (t1 t2 : List (List Char)) :
    cmpComps (a :: t1) (b :: t2) =
      if isDigits (if a.isEmpty then ['0'] else a)
          && isDigits (if b.isEmpty then ['0'] else b) then
        if compVal a < compVal b then some (-1)
        else if compVal b < compVal a then some 1
        else cmpComps t1 t2
      else none := rfl

/-- A well-formed component stays a digit string after the empty-to-zero
replacement. -/
theorem isDigits_repl (l : List Char) (h : goodComp l = true) :
    isDigits (if l.isEmpty then ['0'] else l) = true := by
  cases he : l.isEmpty with
  | true =>
    rw [if_pos rfl]
    decide
  | false =>
    have h2 : isDigits l = true := by simpa [goodComp, he] using h
    simp [he, h2]

/-- A malformed component fails the digit test even after replacement. -/
theorem isDigits_repl_bad (l : List Char) (h : goodComp l = false) :
    isDigits (if l.isEmpty then ['0'] else l) = false := by
  cases he : l.isEmpty with
  | true => simp [goodComp, he] at h
  | false =>
    have h2 : isDigits l = false := by simpa [goodComp, he] using h
    simp [he, h2]

/-- On well-formed component lists the loop agrees with lexicographic
comparison of the numeric views. -/
theorem cmpComps_eq_natLex :
    ∀ (l1 l2 : List (List Char)), l1.all goodComp = true → l2.all goodComp = true →
      cmpComps l1 l2 = some (natLex (l1.map compVal) (l2.map compVal))
  | [], [], _, _ => rfl
  | _ :: _, [], _, _ => rfl
  | [], _ :: _, _, _ => rfl
  | a :: t1, b :: t2, h1, h2 => by
    simp only [List.all_cons, Bool.and_eq_true] at h1 h2
    rw [cmpComps_cons, isDigits_repl a h1.1, isDigits_repl b h2.1]
    simp only [Bool.and_self, if_true, List.map, natLex]
    split_ifs with hab hba
    · rfl
    · rfl
    · rw [cmpComps_eq_natLex t1 t2 h1.2 h2.2]

/-- Reversing the arguments negates the lexicographic comparison. -/
theorem natLex_swap : ∀ x y : List Nat, natLex y x = - natLex x y
  | [], [] => rfl
  | _ :: _, [] => rfl
  | [], _ :: _ => rfl
  | a :: t1, b :: t2 => by
    simp only [natLex]
    rcases Nat.lt_trichotomy a b with h | h | h
    · simp [h, Nat.lt_asymm h]
    · subst h
      simp only [lt_irrefl, if_false]
      exact natLex_swap t1 t2
    · simp [h, Nat.lt_asymm h]

/-- Transitivity of the strictly-below relation induced by natLex. -/
theorem natLex_trans : ∀ x y z : List Nat,
    natLex x y = -1 → natLex y z = -1 → natLex x z = -1
  | [], [], _, hxy, _ => by simp [natLex] at hxy
  | [], _ :: _, [], _, hyz => by simp [natLex] at hyz
  | [], _ :: _, _ :: _, _, _ => rfl
  | _ :: _, [], _, hxy, _ => by simp [natLex] at hxy
  | _ :: _, _ :: _, [], _, hyz => by simp [natLex] at hyz
  | a :: tx, b :: ty, c :: tz, hxy, hyz => by
    simp only [natLex] at hxy hyz ⊢
    rcases Nat.lt_trichotomy a b with hab | hab | hab
    · rcases Nat.lt_trichotomy b c with hbc | hbc | hbc
      · rw [if_pos (Nat.lt_trans hab hbc)]
      · subst hbc
        rw [if_pos hab]
      · rw [if_neg (Nat.lt_asymm hbc), if_pos hbc] at hyz
        exact absurd hyz (by decide)
    · subst hab
      rw [if_neg (lt_irrefl a), if_neg (lt_irrefl a)] at hxy
      rcases Nat.lt_trichotomy a c with hac | hac | hac
      · rw [if_pos hac]
      · subst hac
        rw [if_neg (lt_irrefl a), if_neg (lt_irrefl a)] at hyz ⊢
        exact natLex_trans tx ty tz hxy hyz
      · rw [if_neg (Nat.lt_asymm hac), if_pos hac] at hyz
        exact absurd hyz (by decide)
    · rw [if_neg (Nat.lt_asymm hab), if_pos hab] at hxy
      exact absurd hxy (by decide)

/-- A proper extension is strictly greater under natLex. -/
theorem natLex_extend : ∀ (x t : List Nat), t ≠ [] → natLex x (x ++ t) = -1
  | [], [], h => absurd rfl h
  | [], _ :: _, _ => rfl
  | a :: x, t, h => by
    simp only [List.cons_append, natLex]
    rw [if_neg (lt_irrefl a), if_neg (lt_irrefl a)]
    exact natLex_extend x t h

/-- cmp_oids on well-formed OIDs is the lexicographic comparison of the
numeric component views. -/
theorem cmp_oids_eq_natLex (a b : String) (ha : wfOid a = true) (hb : wfOid b = true) :
    cmp_oids a b = some (natLex (toNats a) (toNats b)) :=
  cmpComps_eq_natLex (oidComps a) (oidComps b) ha hb

/-- When the scan reaches a malformed component pair (all earlier pairs
well formed with equal numeric values), the loop answers none. -/
theorem cmpComps_reaches_bad :
    ∀ (p1 p2 : List (List Char)) (e1 e2 : List Char) (t1 t2 : List (List Char)),
      p1.length = p2.length →
      (∀ q ∈ p1.zip p2, goodComp q.1 = true ∧ goodComp q.2 = true
        ∧ compVal q.1 = compVal q.2) →
      goodComp e1 = false ∨ goodComp e2 = false →
      cmpComps (p1 ++ e1 :: t1) (p2 ++ e2 :: t2) = none
  | [], [], e1, e2, t1, t2, _, _, hbad => by
    rw [List.nil_append, List.nil_append, cmpComps_cons]
    rcases hbad with h | h
    · rw [isDigits_repl_bad e1 h]
      simp
    · rw [isDigits_repl_bad e2 h]
      simp
  | [], _ :: _, _, _, _, _, hlen, _, _ => by simp at hlen
  | _ :: _, [], _, _, _, _, hlen, _, _ => by simp at hlen
  | a :: p1, b :: p2, e1, e2, t1, t2, hlen, hgood, hbad => by
    obtain ⟨hga, hgb, hvab⟩ := hgood (a, b) (by simp)
    rw [List.cons_append, List.cons_append, cmpComps_cons,
      isDigits_repl a hga, isDigits_repl b hgb]
    rw [hvab]
    simp only [Bool.and_self, if_true, lt_irrefl, if_false]
    exact cmpComps_reaches_bad p1 p2 e1 e2 t1 t2 (by simpa using hlen)
      (fun q hq => hgood q (by simp [hq])) hbad

/-! ### Helper lemmas about set_parms -/

/-- The guarded samples assignment keeps the invariant. -/
theorem setSamples_inv (p : Parms) (s : Option PyNum) (h : ParmsInv p) :
    ParmsInv (setSamples p s) := by
  cases s with
  | none => exact h
  | some v =>
    simp only [setSamples]
    split_ifs with hc
    · simp only [Bool.and_eq_true, decide_eq_true_eq] at hc
      refine ⟨hc.1.2, ?_, h.2.2⟩
      simpa [MIN_AVG_SAMPLES] using hc.2
    · exact h

/-- The guarded delta assignment keeps the invariant. -/
theorem setDelta_inv (p : Parms) (d : Option PyNum) (h : ParmsInv p) :
    ParmsInv (setDelta p d) := by
  cases d with
  | none => exact h
  | some v =>
    simp only [setDelta]
    split_ifs with hc
    · simp only [Bool.and_eq_true, decide_eq_true_eq] at hc
      refine ⟨h.1, h.2.1, ?_⟩
      simpa [MIN_AVG_DELTA] using hc.2
    · exact h

/-- The guarded factor assignment keeps the invariant. -/
theorem setFactor_inv (p : Parms) (f : Option PyNum) (h : ParmsInv p) :
    ParmsInv (setFactor p f) := by
  cases f with
  | none => exact h
  | some v =>
    simp only [setFactor]
    split_ifs
    · exact ⟨h.1, h.2.1, h.2.2⟩
    · exact h

/-! ### The claims -/

/-- C1 (code bug): a getnext query for an unregistered OID lying
strictly between the smallest and largest registered OIDs does not
return the bracketed successor: the source stores the MIBVar object
returned by mib.get in candidate and then indexes the mib dict with it,
raising KeyError.  A query above the largest registered OID does report
exhausted as the claim states. -/
theorem c1_between_query_raises_keyerror :
    find_mibvar_next ".1.3.6.1.3.999.1.1.1" = Except.error PyErr.keyError
    ∧ find_mibvar_next ".1.3.6.1.3.999.9" = Except.ok none :=
  ⟨rfl, rfl⟩

/-- C2 (code bug): when every channel read raises, measure still
returns 0 because the return statement inside its finally block
discards the exception; run_measure_circle therefore logs nothing and
the process keeps running, so the failure is never escalated.  The lock
release part of the claim does hold: the lock is free afterwards. -/
theorem c2_read_failure_not_escalated :
    (measure badSrc clk0 fresh1).1 = 0
    ∧ (measure badSrc clk0 fresh1).2.lock = false
    ∧ (run_measure_circle badSrc clk0 fresh1).1 = false :=
  ⟨rfl, rfl, rfl⟩

/-- C3 (code bug): in a cycle where reading channel 1 raises during the
second sampling round, the finally block still marks the snapshot valid
although average never ran: every per-channel valid flag is false and
last_values is untouched, violating the claimed invariant. -/
theorem c3_valid_snapshot_without_averaged_channels :
    (measure midSrc clk0 freshState).2.valid = true
    ∧ (measure midSrc clk0 freshState).2.vec.map ChanSt.valid
        = [false, false, false, false]
    ∧ (measure midSrc clk0 freshState).2.last_values = freshState.last_values :=
  ⟨rfl, rfl, rfl⟩

/-- C4 (confirmed): measure called while the cycle lock is held returns
the busy result -1 immediately and the whole state, snapshot included,
is returned unchanged. -/
theorem c4_busy_returns_and_changes_nothing (src : Nat → Nat → Except PyErr ℚ)
    (clock : Nat → ℚ) (s : CLState) (h : s.lock = true) :
    measure src clock s = (-1, s) := by
  simp [measure, h]

/-- Witness for c4_busy_returns_and_changes_nothing on a concrete held
lock. -/
theorem c4_busy_witness :
    measure badSrc clk0 lockedState = (-1, lockedState) :=
  c4_busy_returns_and_changes_nothing badSrc clk0 lockedState rfl

/-- C5 (code bug): a well-formed GETLAST datagram arriving before the
first completed cycle makes the encoder pack the still-None cycle
timestamps, raising struct.error: no RETLAST PDU is produced and the
exception escapes the handler. -/
theorem c5_getlast_before_first_cycle_raises :
    process_message freshState [1, 1, 0, 1] = Except.error PyErr.structError :=
  rfl

/-- C6 counterexample: the control channel answers NONE to the
base-relative get of the claim, not the claimed device-count reply. -/
theorem c6_counterexample_relative_oid :
    control_reply freshState "get\n.1.1.0\n" = Except.ok "NONE\n"
    ∧ ("NONE\n" : String) ≠ ".1.1.0\n integer\n1\n" :=
  ⟨rfl, by decide⟩

/-- C6 (amended): get needs the absolute OID below the registry base;
with it the reply echoes the full OID, syntax name and value with no
extra blank, while the base-relative OID of the claim and an OID
outside the base both answer NONE. -/
theorem c6_control_get_scenarios :
    control_reply freshState "get\n.1.3.6.1.3.999.1.1.0\n"
        = Except.ok ".1.3.6.1.3.999.1.1.0\ninteger\n1\n"
    ∧ control_reply freshState "get\n.1.1.0\n" = Except.ok "NONE\n"
    ∧ control_reply freshState "get\n.9.9.9\n" = Except.ok "NONE\n" :=
  ⟨rfl, rfl, rfl⟩

/-- C7 (code bug): the getnext that discovers statsValid answers with
first line MIB_BASE concatenated to the stored relative OID 1.4.1.1.1,
which lacks its leading dot (the statistics rows of mib_init build
their OIDs from the prefix 1.4.1. without a dot), so the emitted
absolute OID is not the base followed by a dot-prefixed relative OID. -/
theorem c7_stats_reply_oid_lacks_separator :
    control_reply freshState "getnext\n.1.3.6.1.3.999.1.4.1\n"
        = Except.ok ".1.3.6.1.3.9991.4.1.1.1\ninteger\nFalse\n"
    ∧ (MIB_BASE ++ "1.4.1.1.1" : String) ≠ MIB_BASE ++ ".1.4.1.1.1" :=
  ⟨rfl, by decide⟩

/-- C8 counterexample: the OID .2.x carries a non-digit component, yet
the comparator returns an ordering (the first components already
decide), not the format-error result the claim demands for any OID
with a malformed component. -/
theorem c8_counterexample_nondigit_ordered :
    wfOid ".2.x" = false ∧ cmp_oids ".2.x" ".1" = some 1 := by
  decide

/-- C8 (amended): on well-formed OIDs cmp_oids is exactly lexicographic
numeric comparison of the components, hence asymmetric and transitive;
empty components count as zero; a proper component prefix is smaller;
and a malformed component yields the format error precisely when the
scan reaches it, that is when all earlier component pairs are well
formed with equal values and neither OID has ended before it. -/
theorem c8_cmp_oids_order :
    (∀ a b : String, wfOid a = true → wfOid b = true →
      cmp_oids a b = some (natLex (toNats a) (toNats b)))
    ∧ (∀ a b : String, wfOid a = true → wfOid b = true →
      cmp_oids a b = some (-1) → ¬ cmp_oids b a = some (-1))
    ∧ (∀ a b c : String, wfOid a = true → wfOid b = true → wfOid c = true →
      cmp_oids a b = some (-1) → cmp_oids b c = some (-1) →
      cmp_oids a c = some (-1))
    ∧ cmp_oids ".1..2" ".1.0.2" = some 0
    ∧ (∀ (a b : String) (t : List Nat), wfOid a = true → wfOid b = true →
      toNats b = toNats a ++ t → t ≠ [] → cmp_oids a b = some (-1))
    ∧ (∀ (p1 p2 : List (List Char)) (e1 e2 : List Char) (t1 t2 : List (List Char)),
      p1.length = p2.length →
      (∀ q ∈ p1.zip p2, goodComp q.1 = true ∧ goodComp q.2 = true
        ∧ compVal q.1 = compVal q.2) →
      goodComp e1 = false ∨ goodComp e2 = false →
      cmpComps (p1 ++ e1 :: t1) (p2 ++ e2 :: t2) = none) := by
  refine ⟨cmp_oids_eq_natLex, ?_, ?_, by decide, ?_, cmpComps_reaches_bad⟩
  · intro a b ha hb h h2
    rw [cmp_oids_eq_natLex a b ha hb] at h
    rw [cmp_oids_eq_natLex b a hb ha] at h2
    have n1 := Option.some.inj h
    have n2 := Option.some.inj h2
    rw [natLex_swap (toNats a) (toNats b), n1] at n2
    exact absurd n2 (by decide)
  · intro a b c ha hb hc hab hbc
    rw [cmp_oids_eq_natLex a b ha hb] at hab
    rw [cmp_oids_eq_natLex b c hb hc] at hbc
    rw [cmp_oids_eq_natLex a c ha hc]
    rw [natLex_trans (toNats a) (toNats b) (toNats c)
      (Option.some.inj hab) (Option.some.inj hbc)]
  · intro a b t ha hb hext hne
    rw [cmp_oids_eq_natLex a b ha hb, hext, natLex_extend (toNats a) t hne]

/-- Witness for c8_cmp_oids_order: each clause applied at concrete
inputs with its hypotheses discharged there. -/
theorem c8_cmp_oids_order_witness :
    cmp_oids ".3" ".10" = some (natLex (toNats ".3") (toNats ".10"))
    ∧ ¬ cmp_oids ".5" ".4" = some (-1)
    ∧ cmp_oids ".1" ".3" = some (-1)
    ∧ cmp_oids ".2" ".2.0.1" = some (-1)
    ∧ cmpComps [['1'], ['x']] [['1'], []] = none := by
  refine ⟨c8_cmp_oids_order.1 ".3" ".10" (by decide) (by decide),
    c8_cmp_oids_order.2.1 ".4" ".5" (by decide) (by decide) (by decide),
    c8_cmp_oids_order.2.2.1 ".1" ".2" ".3" (by decide) (by decide) (by decide)
      (by decide) (by decide),
    c8_cmp_oids_order.2.2.2.2.1 ".2" ".2.0.1" [0, 1] (by decide) (by decide)
      (by decide) (by decide),
    c8_cmp_oids_order.2.2.2.2.2 [['1']] [['1']] ['x'] [] [] [] (by decide)
      (by decide) (Or.inl (by decide))⟩

/-- C9 counterexample: with nine signal notifications pending, the
single bounded read of one wake takes eight bytes and leaves one in the
pipe, so not every pending notification is read before the next wait. -/
theorem c9_counterexample_nine_pending :
    (sigDrainRead (List.replicate 9 14)).1.length = SIG_WAKEUP_FD_RLEN
    ∧ (sigDrainRead (List.replicate 9 14)).2 = [14] := by
  decide

/-- C9 (amended): one wake reads exactly the first at most eight
pending bytes and drops none; when at most eight are pending the pipe
is fully drained, and otherwise the leftover keeps the level-triggered
pipe readable so the next wait returns at once. -/
theorem c9_drain_bounded_but_lossless (p : List Nat) :
    (sigDrainRead p).1 = p.take SIG_WAKEUP_FD_RLEN
    ∧ (sigDrainRead p).1 ++ (sigDrainRead p).2 = p
    ∧ (p.length ≤ SIG_WAKEUP_FD_RLEN → (sigDrainRead p).2 = [])
    ∧ ((sigDrainRead p).2 ≠ [] → pipeReadable (sigDrainRead p).2 = true) := by
  refine ⟨rfl, List.take_append_drop _ _, ?_, ?_⟩
  · intro h
    exact List.drop_eq_nil_of_le h
  · intro h
    cases hl : (sigDrainRead p).2 with
    | nil => exact absurd hl h
    | cons a l => simp [pipeReadable]

/-- Witness for c9_drain_bounded_but_lossless: a small queue drained
completely and a long queue leaving the pipe readable. -/
theorem c9_drain_witness :
    (sigDrainRead (List.replicate 3 14)).2 = []
    ∧ pipeReadable (sigDrainRead (List.replicate 9 14)).2 = true :=
  ⟨(c9_drain_bounded_but_lossless (List.replicate 3 14)).2.2.1 (by decide),
   (c9_drain_bounded_but_lossless (List.replicate 9 14)).2.2.2 (by decide)⟩

/-- C10 (confirmed): the constructor and every set_parms call keep the
sampling invariant samples an int above one and delta positive; in
particular the documented minima themselves, a sample count of one and
a delta of zero, are rejected with the previous values left in place. -/
theorem c10_parms_invariant :
    (∀ s d f : PyNum, ParmsInv (mkChannelListParms s d f))
    ∧ (∀ (p : Parms) (s d f : Option PyNum), ParmsInv p → ParmsInv (set_parms p s d f))
    ∧ (∀ p : Parms, setSamples p (some (.pint 1)) = p)
    ∧ (∀ p : Parms, setDelta p (some (.pfloat 0)) = p) := by
  have pres : ∀ (p : Parms) (s d f : Option PyNum), ParmsInv p → ParmsInv (set_parms p s d f) := by
    intro p s d f h
    exact setFactor_inv _ _ (setDelta_inv _ _ (setSamples_inv _ _ h))
  refine ⟨?_, pres, ?_, ?_⟩
  · intro s d f
    refine pres _ _ _ _ ⟨rfl, ?_, ?_⟩
    · norm_num [pVal, DEF_AVG_SAMPLES]
    · norm_num [pVal, DEF_AVG_DELTA]
  · intro p
    norm_num [setSamples, pTruthy, pIsInt, pVal, MIN_AVG_SAMPLES]
  · intro p
    norm_num [setDelta, pTruthy]

/-- Witness for c10_parms_invariant: constructing with the rejected
minima and calling set_parms with them both keep the invariant. -/
theorem c10_parms_invariant_witness :
    ParmsInv (mkChannelListParms (.pint 1) (.pfloat 0) (.pint 1))
    ∧ ParmsInv (set_parms { samples := .pint 5, delta := .pfloat (1/1000), factor := .pint 1 }
        (some (.pint 1)) (some (.pfloat 0)) none) := by
  constructor
  · exact c10_parms_invariant.1 (.pint 1) (.pfloat 0) (.pint 1)
  · refine c10_parms_invariant.2.1 _ (some (.pint 1)) (some (.pfloat 0)) none ⟨rfl, ?_, ?_⟩
    · norm_num [pVal]
    · norm_num [pVal]

end RpiSrv
